import Mathlib

/-!
Verification of the StreamVerse front-end session/authentication core.

The development shallowly embeds the client-side session subsystem:

* a model of the browser `localStorage` (string-keyed string store);
* the `TokenStorageService` (richer access+refresh+expiry+session-expired
  variant, modelled from the spec because only its callers are in the tree);
* the `AuthService` state machine (`login`, `logout`, `refreshSession`,
  `initializeAuthState`, JWT claim decoding via base64url + JSON);
* the `jwtInterceptor` request gate with its 401 invalidation path.

Backend calls are embedded as explicit function parameters returning either
a parsed body or an opaque error string; observable emissions become return
values; thrown errors become `Except`/`Option` results.
-/

set_option autoImplicit false

namespace Streamverse

/-- Model of the browser localStorage: an association list of string keys to
string values, read through `getItem`, written through `setItem` and
`removeItem` exactly as the source does. -/
abbrev Storage := List (String × String)

namespace Storage

/-- Model of `localStorage.getItem`: the value of the first matching key. -/
def getItem (s : Storage) (key : String) : Option String :=
  match s.find? (fun kv => kv.1 == key) with
  | some kv => some kv.2
  | none => none

/-- Model of `localStorage.removeItem`. -/
def removeItem (s : Storage) (key : String) : Storage :=
  s.filter (fun kv => kv.1 != key)

/-- Model of `localStorage.setItem`: the new binding shadows any old one. -/
def setItem (s : Storage) (key value : String) : Storage :=
  (key, value) :: removeItem s key

end Storage

/-- JS truthiness of a nullable string (`!v` is true for `null` and `""`). -/
def jsTruthy (v : Option String) : Bool :=
  match v with
  | none => false
  | some s => s != ""

/-- Storage key for the access token (`ACCESS_KEY` in the source). -/
def ACCESS_KEY : String := "access_token"

/-- Storage key for the token expiration (`EXP_KEY` in the source). -/
def EXP_KEY : String := "expiration"

/-- Storage key for the session-expired flag (`SESSION_EXPIRED_KEY`). -/
def SESSION_EXPIRED_KEY : String := "session_expired"

/-- Modelled from the spec: storage key for the refresh token; the richer
TokenStorageService variant holding it is not in the tree, only its callers. -/
def REFRESH_KEY : String := "refresh_token"

namespace TokenStorageService

/-- Reads the access token from storage (source `getAccessToken`). -/
def getAccessToken (s : Storage) : Option String :=
  Storage.getItem s ACCESS_KEY

/-- Modelled from the spec: `getRefreshToken` of the richer TokenStorageService
variant (absent from the tree; only callers such as `AuthService.refreshSession`
are present). Reads the refresh token from storage. -/
def getRefreshToken (s : Storage) : Option String :=
  Storage.getItem s REFRESH_KEY

/-- Reads the stored expiration timestamp (source `getExpiration`). -/
def getExpiration (s : Storage) : Option String :=
  Storage.getItem s EXP_KEY

/-- Modelled from the spec: `setTokens(access, refresh?, expiration?)` of the
richer TokenStorageService variant (absent from the tree). Overwrites the
access token (and the refresh token, if provided), stores the expiration when
truthy, and clears the session-expired flag. -/
def setTokens (s : Storage) (accessToken : String) (refreshToken : Option String)
    (expiration : Option Int) : Storage :=
  let s1 := Storage.setItem s ACCESS_KEY accessToken
  let s2 := match refreshToken with
    | some r => Storage.setItem s1 REFRESH_KEY r
    | none => s1
  let s3 := match expiration with
    | some e => if e != 0 then Storage.setItem s2 EXP_KEY (toString e) else s2
    | none => s2
  Storage.removeItem s3 SESSION_EXPIRED_KEY

/-- Modelled from the spec: `setAccessToken(access, expiration?)` of the richer
TokenStorageService variant (absent from the tree). Refresh-only path: updates
access token and expiration, leaves the refresh token untouched, clears the
session-expired flag. -/
def setAccessToken (s : Storage) (accessToken : String) (expiration : Option Int) : Storage :=
  let s1 := Storage.setItem s ACCESS_KEY accessToken
  let s2 := match expiration with
    | some e => if e != 0 then Storage.setItem s1 EXP_KEY (toString e) else s1
    | none => s1
  Storage.removeItem s2 SESSION_EXPIRED_KEY

/-- Modelled from the spec: `clearTokens(includeRefresh)` of the richer
TokenStorageService variant (absent from the tree). Removes access token and
expiration always, the refresh token only when `includeRefresh`, and clears the
session-expired flag. -/
def clearTokens (s : Storage) (includeRefresh : Bool) : Storage :=
  let s1 := Storage.removeItem s ACCESS_KEY
  let s2 := Storage.removeItem s1 EXP_KEY
  let s3 := if includeRefresh then Storage.removeItem s2 REFRESH_KEY else s2
  Storage.removeItem s3 SESSION_EXPIRED_KEY

/-- Modelled from the spec: sets the one-bit session-expired latch, written as
`"1"` exactly as the `jwtInterceptor` in the tree writes it. -/
def setSessionExpiredFlag (s : Storage) : Storage :=
  Storage.setItem s SESSION_EXPIRED_KEY "1"

/-- Modelled from the spec: clears the session-expired latch. -/
def clearSessionExpiredFlag (s : Storage) : Storage :=
  Storage.removeItem s SESSION_EXPIRED_KEY

/-- Modelled from the spec: reads the session-expired latch. -/
def isSessionExpired (s : Storage) : Bool :=
  Storage.getItem s SESSION_EXPIRED_KEY == some "1"

end TokenStorageService

/-- Flat JSON values as they occur in a JWT claim payload: strings, integer
numbers, booleans and null (the payload is a flat key/value mapping). -/
inductive Json where
  | str (s : String)
  | num (n : Int)
  | bool (b : Bool)
  | null
deriving DecidableEq, Repr

/-- Auxiliary loop for `jsSplit`, carrying the reversed current segment. -/
def jsSplitAux (sep : Char) : List Char → List Char → List String
  | acc, [] => [String.mk acc.reverse]
  | acc, c :: cs =>
    if c == sep then String.mk acc.reverse :: jsSplitAux sep [] cs
    else jsSplitAux sep (c :: acc) cs

/-- Model of the JS `String.prototype.split` with a single-character
separator, as used by `token.split(".")` in `decodeJwtPayload`. -/
def jsSplit (s : String) (sep : Char) : List String :=
  jsSplitAux sep [] s.data

/-- Standard base64 alphabet, indexed 0..63, as consumed by `atob`. -/
def b64Alphabet : List Char :=
  "ABCDEFGHIJKLMNOPQRSTUVWXYZabcdefghijklmnopqrstuvwxyz0123456789+/".data

/-- Base64url alphabet, indexed 0..63 (`-` and `_` replace `+` and `/`). -/
def b64urlAlphabet : List Char :=
  "ABCDEFGHIJKLMNOPQRSTUVWXYZabcdefghijklmnopqrstuvwxyz0123456789-_".data

/-- Index of a character in the standard base64 alphabet, none if absent. -/
def b64Index (c : Char) : Option Nat :=
  b64Alphabet.findIdx? (fun x => x == c)

/-- Character of a 6-bit value in the base64url alphabet. -/
def b64urlChar (n : Nat) : Char :=
  b64urlAlphabet.getD n 'A'

/-- Decodes a base64 character list in groups of four characters, handling
trailing `=` padding; fails on any character outside the alphabet, on `=` in
a non-final position, or on a length that is not a multiple of four. This is
the byte-level core of the browser `atob` on the already padded input that
`decodeJwtPayload` builds. -/
def atobChunks : List Char → Option (List Nat)
  | [] => some []
  | c1 :: c2 :: c3 :: c4 :: rest => do
    let i1 ← b64Index c1
    let i2 ← b64Index c2
    if c3 == '=' then
      if c4 == '=' && rest.isEmpty then some [i1 * 4 + i2 / 16] else none
    else do
      let i3 ← b64Index c3
      if c4 == '=' then
        if rest.isEmpty then some [i1 * 4 + i2 / 16, (i2 % 16) * 16 + i3 / 4] else none
      else do
        let i4 ← b64Index c4
        let bs ← atobChunks rest
        some ((i1 * 4 + i2 / 16) :: ((i2 % 16) * 16 + i3 / 4) :: ((i3 % 4) * 64 + i4) :: bs)
  | _ => none

/-- Turns decoded bytes into the binary string `atob` returns. -/
def strOfBytes (bs : List Nat) : String :=
  String.mk (bs.map Char.ofNat)

/-- Model of the browser `atob`: decodes a padded base64 string into a binary
string, or fails (the JS `InvalidCharacterError` becomes `none`). -/
def atob (s : String) : Option String :=
  (atobChunks s.data).map strOfBytes

/-- Character-level base64url-to-base64 translation (dash to plus, underscore
to slash, all other characters unchanged). -/
def b64urlTr (c : Char) : Char :=
  if c == '-' then '+' else if c == '_' then '/' else c

/-- The base64url-to-base64 translation performed on the middle segment by
the two global `replace` calls. -/
def b64urlToB64 (s : String) : String :=
  String.mk (s.data.map b64urlTr)

/-- The padding step `base64 + "=".repeat((4 - (base64.length % 4)) % 4)`. -/
def padB64 (s : String) : String :=
  s ++ String.mk (List.replicate ((4 - s.length % 4) % 4) '=')

/-- Base64url encoding of a byte list, unpadded, in groups of three bytes;
this is the reference encoder used to state the round-trip property for
well-formed tokens. -/
def b64urlEncode : List Nat → String
  | [] => ""
  | [b1] =>
    String.mk [b64urlChar (b1 / 4), b64urlChar (b1 % 4 * 16)]
  | [b1, b2] =>
    String.mk [b64urlChar (b1 / 4), b64urlChar (b1 % 4 * 16 + b2 / 16), b64urlChar (b2 % 16 * 4)]
  | b1 :: b2 :: b3 :: rest =>
    String.mk [b64urlChar (b1 / 4), b64urlChar (b1 % 4 * 16 + b2 / 16),
      b64urlChar (b2 % 16 * 4 + b3 / 64), b64urlChar (b3 % 64)] ++ b64urlEncode rest

/-- JSON insignificant whitespace. -/
def jsonWs (c : Char) : Bool :=
  c == ' ' || c == '\t' || c == '\n' || c == '\r'

/-- Skips leading JSON whitespace. -/
def skipWs (cs : List Char) : List Char :=
  cs.dropWhile jsonWs

/-- Parses the body of a JSON string after the opening quote, up to the
closing quote; escape sequences are out of the modelled domain and fail. -/
def parseStringBody : List Char → Option (String × List Char)
  | [] => none
  | c :: cs =>
    if c == '"' then some ("", cs)
    else if c == '\\' then none
    else
      match parseStringBody cs with
      | some (s, rest) => some (String.mk (c :: s.data), rest)
      | none => none

/-- Numeric value of a list of decimal digits. -/
def digitsToNat (ds : List Char) : Nat :=
  ds.foldl (fun n c => n * 10 + (c.toNat - 48)) 0

/-- Parses a JSON integer (optional minus sign then decimal digits). -/
def parseNumber (cs : List Char) : Option (Int × List Char) :=
  match cs with
  | '-' :: rest =>
    let ds := rest.takeWhile Char.isDigit
    if ds.isEmpty then none
    else some (-(digitsToNat ds : Int), rest.dropWhile Char.isDigit)
  | _ =>
    let ds := cs.takeWhile Char.isDigit
    if ds.isEmpty then none
    else some ((digitsToNat ds : Int), cs.dropWhile Char.isDigit)

/-- Parses one flat JSON value: string, `true`, `false`, `null` or integer. -/
def parseValue (cs : List Char) : Option (Json × List Char) :=
  match cs with
  | '"' :: rest => (parseStringBody rest).map (fun p => (Json.str p.1, p.2))
  | 't' :: 'r' :: 'u' :: 'e' :: rest => some (Json.bool true, rest)
  | 'f' :: 'a' :: 'l' :: 's' :: 'e' :: rest => some (Json.bool false, rest)
  | 'n' :: 'u' :: 'l' :: 'l' :: rest => some (Json.null, rest)
  | _ => (parseNumber cs).map (fun p => (Json.num p.1, p.2))

/-- Parses the members of a flat JSON object after the opening brace, up to
and including the closing brace; `fuel` bounds the number of members. -/
def parseMembersAux : Nat → List Char → Option (List (String × Json) × List Char)
  | 0, _ => none
  | fuel + 1, cs =>
    match skipWs cs with
    | '"' :: rest =>
      match parseStringBody rest with
      | none => none
      | some (key, rest1) =>
        match skipWs rest1 with
        | ':' :: rest2 =>
          match parseValue (skipWs rest2) with
          | none => none
          | some (v, rest3) =>
            match skipWs rest3 with
            | ',' :: rest4 =>
              match parseMembersAux fuel rest4 with
              | some (ms, rest5) => some ((key, v) :: ms, rest5)
              | none => none
            | '}' :: rest4 => some ([(key, v)], rest4)
            | _ => none
        | _ => none
    | _ => none

/-- Model of `JSON.parse` on the flat key/value payloads a JWT carries:
parses a single flat object into an association list, failing on anything
else, as the enclosing try/catch turns every parse error into `null`. -/
def parseJson (s : String) : Option (List (String × Json)) :=
  match skipWs s.data with
  | '{' :: rest =>
    match skipWs rest with
    | '}' :: rest1 => if (skipWs rest1).isEmpty then some [] else none
    | _ =>
      match parseMembersAux (rest.length + 1) rest with
      | some (ms, rest1) => if (skipWs rest1).isEmpty then some ms else none
      | none => none
  | _ => none

/-- Embedding of `AuthService.decodeJwtPayload`: split the token on dots,
require exactly three segments, translate the middle one from base64url to
base64, pad it to a multiple of four with `=`, `atob`-decode it and parse the
result as JSON; every failure yields `none` (the source catch returns null). -/
def decodeJwtPayload (token : String) : Option (List (String × Json)) :=
  match jsSplit token '.' with
  | [_, payload, _] =>
    let base64 := b64urlToB64 payload
    let padded := padB64 base64
    match atob padded with
    | some json => parseJson json
    | none => none
  | _ => none

/-- Embedding of `AuthService.getClaimFromToken`: looks a claim up in the
decoded payload; an undecodable token or an absent claim yields `none`. -/
def getClaimFromToken (token : String) (claim : String) : Option Json :=
  match decodeJwtPayload token with
  | some payload => payload.lookup claim
  | none => none

/-- The published session state (`AuthState` interface of the source). -/
structure AuthState where
  isLoggedIn : Bool
  username : Option String
  isAdmin : Bool
deriving DecidableEq, Repr

/-- The initial value given to the `authState$` BehaviorSubject. -/
def initialAuthState : AuthState :=
  { isLoggedIn := false, username := none, isAdmin := false }

/-- JS truthiness of a nullable JSON claim value (the `!!admin` coercion). -/
def jsTruthyJson (v : Option Json) : Bool :=
  match v with
  | none => false
  | some (Json.str s) => s != ""
  | some (Json.num n) => n != 0
  | some (Json.bool b) => b
  | some Json.null => false

/-- Embedding of `AuthService.updateAuthStateFromToken`: reads the `user` and
`admin` claims and emits a new state with `isLoggedIn := true`, the username
only when the claim is a string, and `isAdmin` the truthiness of `admin`. -/
def updateAuthStateFromToken (token : String) : AuthState :=
  let username := getClaimFromToken token "user"
  let admin := getClaimFromToken token "admin"
  { isLoggedIn := true
    username := match username with
      | some (Json.str s) => some s
      | _ => none
    isAdmin := jsTruthyJson admin }

/-- Embedding of `AuthService.initializeAuthState`: reads the stored access
token and, when it is truthy, derives the state from it; otherwise the
current (initial) state is kept. -/
def initializeAuthState (storage : Storage) (state : AuthState) : AuthState :=
  let accessToken := TokenStorageService.getAccessToken storage
  match accessToken with
  | some t => if t != "" then updateAuthStateFromToken t else state
  | none => state

/-- Embedding of `AuthService.clearAuthState`: clears the whole token store
(refresh token included) and emits the logged-out state. -/
def clearAuthState (storage : Storage) : Storage × AuthState :=
  (TokenStorageService.clearTokens storage true,
   { isLoggedIn := false, username := none, isAdmin := false })

/-- Data part of a backend login response body. -/
structure LoginData where
  access_token : Option String
  refresh_token : Option String
  expiration : Option Int
deriving Repr

/-- Backend login response body (`{success, data}`). -/
structure LoginResponseBody where
  success : Bool
  data : Option LoginData
deriving Repr

/-- Outcome of an embedded HTTP call: a parsed body or an opaque error. -/
inductive HttpOutcome (α : Type) where
  | ok (body : α)
  | error (e : String)
deriving Repr

/-- Embedding of `AuthService.handleLoginSuccess`: throws when either token is
missing from the response data, otherwise writes both tokens (and expiration)
through `setTokens` and derives the new state from the access token. -/
def handleLoginSuccess (storage : Storage) (data : LoginData) :
    Except String (Storage × AuthState) :=
  if !jsTruthy data.access_token || !jsTruthy data.refresh_token then
    Except.error "Invalid login response: missing tokens"
  else
    let storage1 := TokenStorageService.setTokens storage (data.access_token.getD "")
      data.refresh_token data.expiration
    Except.ok (storage1, updateAuthStateFromToken (data.access_token.getD ""))

/-- Login credentials (the `Login` interface of the source). -/
structure Login where
  username : String
  password : String
deriving Repr

/-- ASCII model of the JS `String.prototype.toLowerCase`. -/
def jsToLowerCase (s : String) : String :=
  String.mk (s.data.map Char.toLower)

/-- ASCII whitespace removed by the JS `String.prototype.trim`. -/
def jsWhitespaceChar (c : Char) : Bool :=
  c == ' ' || c == '\t' || c == '\n' || c == '\r' || c == '\x0B' || c == '\x0C'

/-- ASCII model of the JS `String.prototype.trim`. -/
def jsTrim (s : String) : String :=
  String.mk (((s.data.dropWhile jsWhitespaceChar).reverse.dropWhile jsWhitespaceChar).reverse)

/-- Result of one `login` invocation: the backend call that was issued (with
the exact arguments sent), the final storage and published state, and the
error surfaced to the subscriber, if any. -/
structure LoginResult where
  networkCall : Option (String × String)
  storage : Storage
  state : AuthState
  error : Option String
deriving Repr

/-- Embedding of `AuthService.login`: normalizes the username (trim then
lowercase), fails fast without a network call when username or password is
empty, otherwise calls the backend; on a successful body with data it runs
`handleLoginSuccess` (whose throw is re-raised to the subscriber by the
tap/catchError pipe), on a backend error it rethrows the error unchanged,
and on a non-success body it passes the response through untouched. -/
def login (storage : Storage) (state : AuthState) (credentials : Login)
    (backend : String → String → HttpOutcome LoginResponseBody) : LoginResult :=
  let username := jsToLowerCase (jsTrim credentials.username)
  let password := credentials.password
  if username == "" || password == "" then
    { networkCall := none, storage := storage, state := state,
      error := some "Username and password are required" }
  else
    match backend username password with
    | HttpOutcome.error e =>
      { networkCall := some (username, password), storage := storage, state := state,
        error := some e }
    | HttpOutcome.ok response =>
      if response.success then
        match response.data with
        | some data =>
          match handleLoginSuccess storage data with
          | Except.ok (storage1, state1) =>
            { networkCall := some (username, password), storage := storage1, state := state1,
              error := none }
          | Except.error msg =>
            { networkCall := some (username, password), storage := storage, state := state,
              error := some msg }
        | none =>
          { networkCall := some (username, password), storage := storage, state := state,
            error := none }
      else
        { networkCall := some (username, password), storage := storage, state := state,
          error := none }

/-- Result of one `logout` invocation. -/
structure LogoutResult where
  storage : Storage
  state : AuthState
  error : Option String
deriving Repr

/-- Embedding of `AuthService.logout`: calls the backend logout and clears the
auth state on success and on failure alike, rethrowing a failure unchanged. -/
def logout (storage : Storage) (backendResult : HttpOutcome Unit) : LogoutResult :=
  match backendResult with
  | HttpOutcome.ok _ =>
    let cleared := clearAuthState storage
    { storage := cleared.1, state := cleared.2, error := none }
  | HttpOutcome.error e =>
    let cleared := clearAuthState storage
    { storage := cleared.1, state := cleared.2, error := some e }

/-- Data part of a backend refresh response body. -/
structure RefreshData where
  access_token : Option String
deriving Repr

/-- Backend refresh response body (`{success, data}`). -/
structure RefreshResponseBody where
  success : Bool
  data : Option RefreshData
deriving Repr

/-- Extracts the integer value of a JSON claim, as the refresh path feeds the
`exp` claim into `setAccessToken`. -/
def jsIntOfClaim (v : Option Json) : Option Int :=
  match v with
  | some (Json.num n) => some n
  | _ => none

/-- Embedding of `AuthService.handleRefreshSuccess`: reads the `exp` claim out
of the fresh access token, stores the token through `setAccessToken` (refresh
token untouched) and derives the new state from it. -/
def handleRefreshSuccess (storage : Storage) (accessToken : String) : Storage × AuthState :=
  let exp := getClaimFromToken accessToken "exp"
  (TokenStorageService.setAccessToken storage accessToken (jsIntOfClaim exp),
   updateAuthStateFromToken accessToken)

/-- Result of one `refreshSession` invocation: the refresh token sent to the
backend (none when no call was made), final storage and state, and the error
surfaced to the subscriber, if any. -/
structure RefreshResult where
  networkCall : Option String
  storage : Storage
  state : AuthState
  error : Option String
deriving Repr

/-- Embedding of `AuthService.refreshSession`: with no truthy refresh token it
clears the auth state and fails with the no-refresh-token error without any
backend call; otherwise it calls the backend refresh, handling a successful
body with a truthy access token through `handleRefreshSuccess`, clearing the
auth state and rethrowing unchanged on a backend error, and passing any other
body through untouched. -/
def refreshSession (storage : Storage) (state : AuthState)
    (backend : String → HttpOutcome RefreshResponseBody) : RefreshResult :=
  let refreshToken := TokenStorageService.getRefreshToken storage
  if !jsTruthy refreshToken then
    let cleared := clearAuthState storage
    { networkCall := none, storage := cleared.1, state := cleared.2,
      error := some "No refresh token available" }
  else
    let rt := refreshToken.getD ""
    match backend rt with
    | HttpOutcome.error e =>
      let cleared := clearAuthState storage
      { networkCall := some rt, storage := cleared.1, state := cleared.2, error := some e }
    | HttpOutcome.ok response =>
      if response.success then
        match response.data with
        | some data =>
          match data.access_token with
          | some tok =>
            if tok != "" then
              let updated := handleRefreshSuccess storage tok
              { networkCall := some rt, storage := updated.1, state := updated.2, error := none }
            else
              { networkCall := some rt, storage := storage, state := state, error := none }
          | none =>
            { networkCall := some rt, storage := storage, state := state, error := none }
        | none =>
          { networkCall := some rt, storage := storage, state := state, error := none }
      else
        { networkCall := some rt, storage := storage, state := state, error := none }

/-- An outgoing HTTP request as the interceptor sees it. -/
structure HttpRequest where
  url : String
  headers : List (String × String)
deriving DecidableEq, Repr

/-- The StreamVerse API base URL constant of the interceptor. -/
def API_BASE : String := "http://localhost:5000/api/v1.0"

/-- Model of the JS `String.prototype.startsWith`. -/
def jsStartsWith (s pre : String) : Bool :=
  pre.data.isPrefixOf s.data

/-- Model of the JS `String.prototype.endsWith`. -/
def jsEndsWith (s post : String) : Bool :=
  post.data.reverse.isPrefixOf s.data.reverse

/-- Result of the `next` handler as the interceptor observes it. -/
inductive HttpResult where
  | success
  | failure (status : Nat)
deriving DecidableEq, Repr

/-- Model of `request.clone({setHeaders})`: the new header shadows any old
binding with the same name. -/
def setHeader (headers : List (String × String)) (name value : String) :
    List (String × String) :=
  (name, value) :: headers.filter (fun kv => kv.1 != name)

/-- Reads a header from a request header list. -/
def getHeader (headers : List (String × String)) (name : String) : Option String :=
  (headers.find? (fun kv => kv.1 == name)).map (fun kv => kv.2)

/-- Embedding of the `jwtInterceptor` (the variant with the session-expired
flag): a request outside the API origin, the login request, or a missing
access token pass through unmodified; otherwise the request is cloned with an
`Authorization: Bearer` header and, when the response is a 401 error, the
access token and expiration are removed, the session-expired flag is set, and
the original error is rethrown unchanged. The result is the request actually
forwarded, the storage after response handling, and the propagated result. -/
def jwtInterceptor (storage : Storage) (request : HttpRequest)
    (next : HttpRequest → HttpResult) : HttpRequest × Storage × HttpResult :=
  let accessToken := Storage.getItem storage ACCESS_KEY
  let isApiRequest := jsStartsWith request.url API_BASE
  let isLoginRequest := jsEndsWith request.url "/auth/login"
  if !isApiRequest || isLoginRequest || !jsTruthy accessToken then
    (request, storage, next request)
  else
    let authReq : HttpRequest :=
      { request with
        headers := setHeader request.headers "Authorization" ("Bearer " ++ accessToken.getD "") }
    match next authReq with
    | HttpResult.success => (authReq, storage, HttpResult.success)
    | HttpResult.failure status =>
      if status == 401 then
        let storage1 := Storage.setItem
          (Storage.removeItem (Storage.removeItem storage ACCESS_KEY) EXP_KEY)
          SESSION_EXPIRED_KEY "1"
        (authReq, storage1, HttpResult.failure status)
      else
        (authReq, storage, HttpResult.failure status)

/-- The published-state invariant of the spec: a logged-out state carries no
username and no admin flag. -/
def authInvariant (st : AuthState) : Prop :=
  st.isLoggedIn = false → st.username = none ∧ st.isAdmin = false

theorem Storage.getItem_cons (a b : String) (rest : Storage) (k : String) :
    Storage.getItem ((a, b) :: rest) k =
      if a = k then some b else Storage.getItem rest k := by
  simp only [Storage.getItem, List.find?]
  by_cases h : a = k
  · simp [h]
  · have hb : (a == k) = false := by simp [h]
    simp [h, hb]

theorem Storage.getItem_removeItem (s : Storage) (k k2 : String) :
    Storage.getItem (Storage.removeItem s k) k2 =
      if k2 = k then none else Storage.getItem s k2 := by
  induction s with
  | nil => simp [Storage.getItem, Storage.removeItem]
  | cons kv rest ih =>
    obtain ⟨a, b⟩ := kv
    by_cases hk : a = k
    · have : Storage.removeItem ((a, b) :: rest) k = Storage.removeItem rest k := by
        simp [Storage.removeItem, List.filter, hk]
      rw [this, ih]
      by_cases h2 : k2 = k
      · simp [h2]
      · have hak2 : ¬ a = k2 := fun h => h2 (hk ▸ h.symm ▸ rfl)
        simp [h2, Storage.getItem_cons, hak2]
    · have : Storage.removeItem ((a, b) :: rest) k = (a, b) :: Storage.removeItem rest k := by
        have hb : (a != k) = true := by simp [hk]
        simp [Storage.removeItem, List.filter, hb]
      rw [this, Storage.getItem_cons, Storage.getItem_cons, ih]
      by_cases hak2 : a = k2
      · have h2 : ¬ k2 = k := fun h => hk (hak2.symm ▸ h ▸ rfl)
        simp [hak2, h2]
      · simp [hak2]

theorem Storage.getItem_setItem (s : Storage) (k v k2 : String) :
    Storage.getItem (Storage.setItem s k v) k2 =
      if k = k2 then some v else Storage.getItem s k2 := by
  rw [Storage.setItem, Storage.getItem_cons, Storage.getItem_removeItem]
  by_cases h : k = k2
  · simp [h]
  · have h2 : ¬ k2 = k := fun hc => h hc.symm
    simp [h, h2]

theorem jsSplitAux_no_sep (sep : Char) :
    ∀ (cs acc : List Char), (∀ c ∈ cs, c ≠ sep) →
      jsSplitAux sep acc cs = [String.mk (acc.reverse ++ cs)] := by
  intro cs
  induction cs with
  | nil => intro acc _; simp [jsSplitAux]
  | cons c rest ih =>
    intro acc h
    have hc : c ≠ sep := h c (List.mem_cons_self c rest)
    have hb : (c == sep) = false := by simp [hc]
    have hrest : ∀ x ∈ rest, x ≠ sep := fun x hx => h x (List.mem_cons_of_mem c hx)
    simp only [jsSplitAux, hb, Bool.false_eq_true, if_false]
    rw [ih (c :: acc) hrest]
    simp

theorem jsSplitAux_sep_append (sep : Char) :
    ∀ (cs acc rest : List Char), (∀ c ∈ cs, c ≠ sep) →
      jsSplitAux sep acc (cs ++ sep :: rest) =
        String.mk (acc.reverse ++ cs) :: jsSplitAux sep [] rest := by
  intro cs
  induction cs with
  | nil =>
    intro acc rest _
    simp [jsSplitAux]
  | cons c tail ih =>
    intro acc rest h
    have hc : c ≠ sep := h c (List.mem_cons_self c tail)
    have hb : (c == sep) = false := by simp [hc]
    have htail : ∀ x ∈ tail, x ≠ sep := fun x hx => h x (List.mem_cons_of_mem c hx)
    simp only [List.cons_append, jsSplitAux, hb, Bool.false_eq_true, if_false]
    rw [List.append_eq, ih (c :: acc) rest htail]
    simp

theorem string_mk_data (s : String) : String.mk s.data = s := rfl

theorem jsSplit_three (h m s : String)
    (hh : ∀ c ∈ h.data, c ≠ '.') (hm : ∀ c ∈ m.data, c ≠ '.')
    (hs : ∀ c ∈ s.data, c ≠ '.') :
    jsSplit (h ++ "." ++ m ++ "." ++ s) '.' = [h, m, s] := by
  have hdata : (h ++ "." ++ m ++ "." ++ s).data =
      h.data ++ '.' :: (m.data ++ '.' :: s.data) := by
    simp [String.data_append]
  rw [jsSplit, hdata, jsSplitAux_sep_append '.' h.data [] _ hh]
  rw [jsSplitAux_sep_append '.' m.data [] _ hm]
  rw [jsSplitAux_no_sep '.' s.data [] hs]
  simp [string_mk_data]

theorem b64Index_tr_b64urlChar : ∀ n, n < 64 →
    b64Index (b64urlTr (b64urlChar n)) = some n := by decide

theorem b64urlChar_tr_ne_eq : ∀ n, n < 64 →
    (b64urlTr (b64urlChar n) == '=') = false := by decide

theorem b64urlChar_ne_dot_lt : ∀ n, n < 64 → b64urlChar n ≠ '.' := by decide

theorem b64urlChar_ne_dot (n : Nat) : b64urlChar n ≠ '.' := by
  by_cases hn : n < 64
  · exact b64urlChar_ne_dot_lt n hn
  · rw [b64urlChar, List.getD_eq_default]
    · decide
    · have hlen : b64urlAlphabet.length = 64 := by decide
      omega

theorem b64urlEncode_no_dot : ∀ (bs : List Nat), ∀ c ∈ (b64urlEncode bs).data, c ≠ '.'
  | [] => by simp [b64urlEncode]
  | [b1] => by
    intro c hc
    simp only [b64urlEncode, List.mem_cons, List.not_mem_nil, or_false] at hc
    rcases hc with h | h
    · exact h ▸ b64urlChar_ne_dot _
    · exact h ▸ b64urlChar_ne_dot _
  | [b1, b2] => by
    intro c hc
    simp only [b64urlEncode, List.mem_cons, List.not_mem_nil, or_false] at hc
    rcases hc with h | h | h
    · exact h ▸ b64urlChar_ne_dot _
    · exact h ▸ b64urlChar_ne_dot _
    · exact h ▸ b64urlChar_ne_dot _
  | b1 :: b2 :: b3 :: rest => by
    intro c hc
    simp only [b64urlEncode, String.data_append] at hc
    rcases List.mem_append.mp hc with h | h
    · simp only [List.mem_cons, List.not_mem_nil, or_false] at h
      rcases h with h | h | h | h
      · exact h ▸ b64urlChar_ne_dot _
      · exact h ▸ b64urlChar_ne_dot _
      · exact h ▸ b64urlChar_ne_dot _
      · exact h ▸ b64urlChar_ne_dot _
    · exact b64urlEncode_no_dot rest c h

theorem atobChunks_enc : ∀ (bs : List Nat), (∀ b ∈ bs, b < 256) →
    atobChunks ((b64urlEncode bs).data.map b64urlTr ++
      List.replicate ((4 - (b64urlEncode bs).data.length % 4) % 4) '=') = some bs
  | [], _ => rfl
  | [b1], h => by
    have h1 : b1 < 256 := h b1 (by simp)
    have e1 : b64Index (b64urlTr (b64urlChar (b1 / 4))) = some (b1 / 4) :=
      b64Index_tr_b64urlChar _ (by omega)
    have e2 : b64Index (b64urlTr (b64urlChar (b1 % 4 * 16))) = some (b1 % 4 * 16) :=
      b64Index_tr_b64urlChar _ (by omega)
    show atobChunks
      [b64urlTr (b64urlChar (b1 / 4)), b64urlTr (b64urlChar (b1 % 4 * 16)), '=', '='] = some [b1]
    simp [atobChunks, e1, e2]
    omega
  | [b1, b2], h => by
    have h1 : b1 < 256 := h b1 (by simp)
    have h2 : b2 < 256 := h b2 (by simp)
    have e1 : b64Index (b64urlTr (b64urlChar (b1 / 4))) = some (b1 / 4) :=
      b64Index_tr_b64urlChar _ (by omega)
    have e2 : b64Index (b64urlTr (b64urlChar (b1 % 4 * 16 + b2 / 16))) =
        some (b1 % 4 * 16 + b2 / 16) :=
      b64Index_tr_b64urlChar _ (by omega)
    have e3 : b64Index (b64urlTr (b64urlChar (b2 % 16 * 4))) = some (b2 % 16 * 4) :=
      b64Index_tr_b64urlChar _ (by omega)
    have ne3 : (b64urlTr (b64urlChar (b2 % 16 * 4)) == '=') = false :=
      b64urlChar_tr_ne_eq _ (by omega)
    show atobChunks
      [b64urlTr (b64urlChar (b1 / 4)), b64urlTr (b64urlChar (b1 % 4 * 16 + b2 / 16)),
       b64urlTr (b64urlChar (b2 % 16 * 4)), '='] = some [b1, b2]
    simp [atobChunks, e1, e2, e3, ne3]
    constructor
    · omega
    · omega
  | b1 :: b2 :: b3 :: rest, h => by
    have h1 : b1 < 256 := h b1 (by simp)
    have h2 : b2 < 256 := h b2 (by simp)
    have h3 : b3 < 256 := h b3 (by simp)
    have hrest : ∀ b ∈ rest, b < 256 := fun b hb => h b (by simp [hb])
    have e1 : b64Index (b64urlTr (b64urlChar (b1 / 4))) = some (b1 / 4) :=
      b64Index_tr_b64urlChar _ (by omega)
    have e2 : b64Index (b64urlTr (b64urlChar (b1 % 4 * 16 + b2 / 16))) =
        some (b1 % 4 * 16 + b2 / 16) :=
      b64Index_tr_b64urlChar _ (by omega)
    have e3 : b64Index (b64urlTr (b64urlChar (b2 % 16 * 4 + b3 / 64))) =
        some (b2 % 16 * 4 + b3 / 64) :=
      b64Index_tr_b64urlChar _ (by omega)
    have e4 : b64Index (b64urlTr (b64urlChar (b3 % 64))) = some (b3 % 64) :=
      b64Index_tr_b64urlChar _ (by omega)
    have ne3 : (b64urlTr (b64urlChar (b2 % 16 * 4 + b3 / 64)) == '=') = false :=
      b64urlChar_tr_ne_eq _ (by omega)
    have ne4 : (b64urlTr (b64urlChar (b3 % 64)) == '=') = false :=
      b64urlChar_tr_ne_eq _ (by omega)
    have ih := atobChunks_enc rest hrest
    have hlen : (4 - ((b64urlEncode (b1 :: b2 :: b3 :: rest)).data.length) % 4) % 4 =
        (4 - (b64urlEncode rest).data.length % 4) % 4 := by
      simp only [b64urlEncode, String.data_append]
      simp only [List.length_append, List.length_cons, List.length_nil]
      omega
    rw [hlen]
    have hdata : (b64urlEncode (b1 :: b2 :: b3 :: rest)).data.map b64urlTr ++
        List.replicate ((4 - (b64urlEncode rest).data.length % 4) % 4) '=' =
        b64urlTr (b64urlChar (b1 / 4)) :: b64urlTr (b64urlChar (b1 % 4 * 16 + b2 / 16)) ::
        b64urlTr (b64urlChar (b2 % 16 * 4 + b3 / 64)) :: b64urlTr (b64urlChar (b3 % 64)) ::
        ((b64urlEncode rest).data.map b64urlTr ++
          List.replicate ((4 - (b64urlEncode rest).data.length % 4) % 4) '=') := by
      simp only [b64urlEncode, String.data_append]
      simp [List.map_append]
    rw [hdata]
    have ih2 : atobChunks (List.map b64urlTr (b64urlEncode rest).data ++
        List.replicate ((4 - (b64urlEncode rest).length % 4) % 4) '=') = some rest := ih
    simp [atobChunks, e1, e2, e3, e4, ne3, ne4, ih2]
    refine ⟨by omega, by omega, by omega⟩

theorem atob_pipeline (bs : List Nat) (hb : ∀ b ∈ bs, b < 256) :
    atob (padB64 (b64urlToB64 (b64urlEncode bs))) = some (strOfBytes bs) := by
  have hl : (b64urlToB64 (b64urlEncode bs)).length = (b64urlEncode bs).data.length := by
    rw [show (b64urlToB64 (b64urlEncode bs)).length =
      ((b64urlEncode bs).data.map b64urlTr).length from rfl, List.length_map]
  have hdata : (padB64 (b64urlToB64 (b64urlEncode bs))).data =
      (b64urlEncode bs).data.map b64urlTr ++
        List.replicate ((4 - (b64urlEncode bs).data.length % 4) % 4) '=' := by
    rw [show (padB64 (b64urlToB64 (b64urlEncode bs))).data =
      (b64urlEncode bs).data.map b64urlTr ++
        List.replicate ((4 - (b64urlToB64 (b64urlEncode bs)).length % 4) % 4) '=' from rfl, hl]
  rw [atob, hdata, atobChunks_enc bs hb]
  rfl

theorem decodeJwtPayload_wellformed (hseg sseg : String) (bs : List Nat)
    (hh : ∀ c ∈ hseg.data, c ≠ '.') (hs : ∀ c ∈ sseg.data, c ≠ '.')
    (hb : ∀ b ∈ bs, b < 256) :
    decodeJwtPayload (hseg ++ "." ++ b64urlEncode bs ++ "." ++ sseg) =
      parseJson (strOfBytes bs) := by
  have hsplit := jsSplit_three hseg (b64urlEncode bs) sseg hh (b64urlEncode_no_dot bs) hs
  unfold decodeJwtPayload
  rw [hsplit]
  show (match atob (padB64 (b64urlToB64 (b64urlEncode bs))) with
    | some json => parseJson json
    | none => none) = parseJson (strOfBytes bs)
  rw [atob_pipeline bs hb]

theorem clearTokens_clears (s : Storage) :
    TokenStorageService.getAccessToken (TokenStorageService.clearTokens s true) = none ∧
    TokenStorageService.getRefreshToken (TokenStorageService.clearTokens s true) = none ∧
    TokenStorageService.getExpiration (TokenStorageService.clearTokens s true) = none ∧
    TokenStorageService.isSessionExpired (TokenStorageService.clearTokens s true) = false := by
  unfold TokenStorageService.clearTokens TokenStorageService.getAccessToken
    TokenStorageService.getRefreshToken TokenStorageService.getExpiration
    TokenStorageService.isSessionExpired
  simp [Storage.getItem_removeItem, ACCESS_KEY, EXP_KEY, REFRESH_KEY, SESSION_EXPIRED_KEY]

theorem updateAuthStateFromToken_isLoggedIn (token : String) :
    (updateAuthStateFromToken token).isLoggedIn = true := rfl

theorem authInvariant_update (token : String) :
    authInvariant (updateAuthStateFromToken token) := by
  intro h
  rw [updateAuthStateFromToken_isLoggedIn] at h
  simp at h

/-- C4: for every invocation of `logout()`, once the operation settles —
whether the backend logout call succeeds or fails — the token store is cleared
and the published session state has `isLoggedIn = false`; local logout is
unconditionally effective. -/
theorem logout_always_clears (storage : Storage) (backendResult : HttpOutcome Unit) :
    (logout storage backendResult).state =
      { isLoggedIn := false, username := none, isAdmin := false } ∧
    TokenStorageService.getAccessToken (logout storage backendResult).storage = none ∧
    TokenStorageService.getRefreshToken (logout storage backendResult).storage = none ∧
    TokenStorageService.getExpiration (logout storage backendResult).storage = none ∧
    TokenStorageService.isSessionExpired (logout storage backendResult).storage = false := by
  have h := clearTokens_clears storage
  cases backendResult with
  | ok v => exact ⟨rfl, h.1, h.2.1, h.2.2.1, h.2.2.2⟩
  | error e => exact ⟨rfl, h.1, h.2.1, h.2.2.1, h.2.2.2⟩

/-- C8: after every call to `setTokens` (the fresh-login token write) the
session-expired flag is cleared, so `isSessionExpired()` returns false. -/
theorem setTokens_clears_sessionExpired (s : Storage) (accessToken : String)
    (refreshToken : Option String) (expiration : Option Int) :
    TokenStorageService.isSessionExpired
      (TokenStorageService.setTokens s accessToken refreshToken expiration) = false := by
  unfold TokenStorageService.setTokens TokenStorageService.isSessionExpired
  simp [Storage.getItem_removeItem]

/-- C9: every session state published on the auth stream — the initial state,
every state emitted after a login or refresh update, and every state emitted
after a clear — satisfies the invariant `loggedIn = false` implies
`username = null` and `isAdmin = false`. -/
theorem authState_invariant_all :
    authInvariant initialAuthState ∧
    (∀ token, authInvariant (updateAuthStateFromToken token)) ∧
    (∀ storage, authInvariant (clearAuthState storage).2) ∧
    (∀ storage state credentials backend, authInvariant state →
      authInvariant (login storage state credentials backend).state) ∧
    (∀ storage backendResult, authInvariant (logout storage backendResult).state) ∧
    (∀ storage state backend, authInvariant state →
      authInvariant (refreshSession storage state backend).state) ∧
    (∀ storage state, authInvariant state →
      authInvariant (initializeAuthState storage state)) := by
  refine ⟨fun _ => ⟨rfl, rfl⟩, authInvariant_update, fun _ _ => ⟨rfl, rfl⟩, ?_, ?_, ?_, ?_⟩
  · intro storage state credentials backend hinv
    unfold login
    dsimp only
    split
    · exact hinv
    · generalize backend (jsToLowerCase (jsTrim credentials.username)) credentials.password = r
      cases r with
      | error e => exact hinv
      | ok response =>
        dsimp only
        split
        · split
          · split
            · rename_i data p heq
              unfold handleLoginSuccess at heq
              split at heq
              · simp at heq
              · simp only [Except.ok.injEq, Prod.mk.injEq] at heq
                exact heq.2 ▸ authInvariant_update _
            · exact hinv
          · exact hinv
        · exact hinv
  · intro storage backendResult
    cases backendResult with
    | ok v => exact fun _ => ⟨rfl, rfl⟩
    | error e => exact fun _ => ⟨rfl, rfl⟩
  · intro storage state backend hinv
    unfold refreshSession
    dsimp only
    split
    · exact fun _ => ⟨rfl, rfl⟩
    · generalize backend _ = r
      cases r with
      | error e => exact fun _ => ⟨rfl, rfl⟩
      | ok response =>
        dsimp only
        split
        · split
          · split
            · split
              · exact authInvariant_update _
              · exact hinv
            · exact hinv
          · exact hinv
        · exact hinv
  · intro storage state hinv
    unfold initializeAuthState
    dsimp only
    split
    · split
      · exact authInvariant_update _
      · exact hinv
    · exact hinv

/-- C5: `refreshSession()` with no stored refresh token clears the session
state and fails with the no-refresh-token error without performing any network
call; with a stored refresh token whose backend refresh call fails, it clears
all tokens, transitions to logged out, and surfaces the error unchanged. -/
theorem refreshSession_failure_paths :
    (∀ (storage : Storage) (state : AuthState)
        (backend : String → HttpOutcome RefreshResponseBody),
      jsTruthy (TokenStorageService.getRefreshToken storage) = false →
      refreshSession storage state backend =
        { networkCall := none,
          storage := TokenStorageService.clearTokens storage true,
          state := { isLoggedIn := false, username := none, isAdmin := false },
          error := some "No refresh token available" } ∧
      TokenStorageService.getAccessToken (refreshSession storage state backend).storage = none ∧
      TokenStorageService.getRefreshToken (refreshSession storage state backend).storage = none ∧
      TokenStorageService.getExpiration (refreshSession storage state backend).storage = none) ∧
    (∀ (storage : Storage) (state : AuthState)
        (backend : String → HttpOutcome RefreshResponseBody) (rt e : String),
      TokenStorageService.getRefreshToken storage = some rt → rt ≠ "" →
      backend rt = HttpOutcome.error e →
      refreshSession storage state backend =
        { networkCall := some rt,
          storage := TokenStorageService.clearTokens storage true,
          state := { isLoggedIn := false, username := none, isAdmin := false },
          error := some e } ∧
      TokenStorageService.getAccessToken (refreshSession storage state backend).storage = none ∧
      TokenStorageService.getRefreshToken (refreshSession storage state backend).storage = none ∧
      TokenStorageService.getExpiration (refreshSession storage state backend).storage = none) := by
  constructor
  · intro storage state backend h
    have hmain : refreshSession storage state backend =
        { networkCall := none,
          storage := TokenStorageService.clearTokens storage true,
          state := { isLoggedIn := false, username := none, isAdmin := false },
          error := some "No refresh token available" } := by
      unfold refreshSession
      dsimp only
      rw [h]
      rfl
    have hc := clearTokens_clears storage
    rw [hmain]
    exact ⟨rfl, hc.1, hc.2.1, hc.2.2.1⟩
  · intro storage state backend rt e hget hne hb
    have htr : jsTruthy (TokenStorageService.getRefreshToken storage) = true := by
      rw [hget]; simp [jsTruthy, hne]
    have hmain : refreshSession storage state backend =
        { networkCall := some rt,
          storage := TokenStorageService.clearTokens storage true,
          state := { isLoggedIn := false, username := none, isAdmin := false },
          error := some e } := by
      unfold refreshSession
      dsimp only
      rw [htr, hget]
      dsimp only [Option.getD]
      rw [hb]
      simp [clearAuthState]
    have hc := clearTokens_clears storage
    rw [hmain]
    exact ⟨rfl, hc.1, hc.2.1, hc.2.2.1⟩

/-- C6: for every credentials input, login normalizes the username (trim then
lowercase) before the backend call is made — the backend call carries exactly
the normalized username — and if the trimmed username or the password is
empty, login returns the invalid-input error and issues no network call. -/
theorem login_normalizes_and_validates :
    (∀ (storage : Storage) (state : AuthState) (credentials : Login)
        (backend : String → String → HttpOutcome LoginResponseBody),
      jsToLowerCase (jsTrim credentials.username) = "" ∨ credentials.password = "" →
      login storage state credentials backend =
        { networkCall := none, storage := storage, state := state,
          error := some "Username and password are required" }) ∧
    (∀ (storage : Storage) (state : AuthState) (credentials : Login)
        (backend : String → String → HttpOutcome LoginResponseBody),
      jsToLowerCase (jsTrim credentials.username) ≠ "" → credentials.password ≠ "" →
      (login storage state credentials backend).networkCall =
        some (jsToLowerCase (jsTrim credentials.username), credentials.password)) := by
  constructor
  · intro storage state credentials backend h
    unfold login
    dsimp only
    rcases h with h | h <;> simp [h]
  · intro storage state credentials backend hu hp
    unfold login
    dsimp only
    have hcond : (jsToLowerCase (jsTrim credentials.username) == "" ||
        credentials.password == "") = false := by
      simp [hu, hp]
    simp only [hcond, Bool.false_eq_true, if_false]
    generalize backend (jsToLowerCase (jsTrim credentials.username)) credentials.password = r
    cases r with
    | error e => rfl
    | ok response =>
      dsimp only
      split
      · split
        · split
          · rfl
          · rfl
        · rfl
      · rfl

/-- C10: if the backend login response reports success but its data is missing
`access_token` or `refresh_token`, `login()` signals the missing-tokens error
to the subscriber and neither the token store nor the published session state
is modified — no token write occurs before the error is raised. -/
theorem login_missing_tokens_error :
    ∀ (storage : Storage) (state : AuthState) (credentials : Login)
      (backend : String → String → HttpOutcome LoginResponseBody) (d : LoginData),
      jsToLowerCase (jsTrim credentials.username) ≠ "" → credentials.password ≠ "" →
      backend (jsToLowerCase (jsTrim credentials.username)) credentials.password =
        HttpOutcome.ok { success := true, data := some d } →
      (d.access_token = none ∨ d.refresh_token = none) →
      login storage state credentials backend =
        { networkCall := some (jsToLowerCase (jsTrim credentials.username),
            credentials.password),
          storage := storage, state := state,
          error := some "Invalid login response: missing tokens" } := by
  intro storage state credentials backend d hu hp hb hmiss
  have hcond : (jsToLowerCase (jsTrim credentials.username) == "" ||
      credentials.password == "") = false := by
    simp [hu, hp]
  have hfail : handleLoginSuccess storage d =
      Except.error "Invalid login response: missing tokens" := by
    unfold handleLoginSuccess
    rcases hmiss with h | h <;> simp [h, jsTruthy]
  unfold login
  dsimp only
  simp only [hcond, Bool.false_eq_true, if_false]
  rw [hb]
  dsimp only
  simp only [if_true]
  rw [hfail]

/-- C1 counterexample: the stored token `"notajwt"` is not decodable (wrong
segment count), yet initialization publishes `isLoggedIn = true`, refuting
"the derived session state is logged out" and "loggedIn is true iff a
decodable access token is present" as stated. -/
theorem undecodable_token_logged_in_cex :
    decodeJwtPayload "notajwt" = none ∧
    (initializeAuthState [(ACCESS_KEY, "notajwt")] initialAuthState).isLoggedIn = true :=
  ⟨rfl, rfl⟩

/-- C1 (amended): for every stored token string that is not decodable, claim
lookups yield no claims and no exception propagates — the derived state has
`username = none` and `isAdmin = false` — but `isLoggedIn` becomes true for
any stored non-empty token string: loggedIn is true iff a non-empty access
token string is present, decodable or not. -/
theorem initializeAuthState_amended :
    (∀ (storage : Storage) (t : String),
      Storage.getItem storage ACCESS_KEY = some t → t ≠ "" →
      decodeJwtPayload t = none →
      initializeAuthState storage initialAuthState =
        { isLoggedIn := true, username := none, isAdmin := false }) ∧
    (∀ storage : Storage,
      (initializeAuthState storage initialAuthState).isLoggedIn =
        jsTruthy (TokenStorageService.getAccessToken storage)) := by
  constructor
  · intro storage t hget hne hdec
    unfold initializeAuthState TokenStorageService.getAccessToken
    dsimp only
    rw [hget]
    dsimp only
    have ht : (t != "") = true := by simp [hne]
    rw [if_pos ht]
    unfold updateAuthStateFromToken getClaimFromToken
    rw [hdec]
    rfl
  · intro storage
    unfold initializeAuthState TokenStorageService.getAccessToken
    dsimp only
    cases h : Storage.getItem storage ACCESS_KEY with
    | none => rfl
    | some t =>
      by_cases ht : t = ""
      · simp [ht, jsTruthy, initialAuthState]
      · simp [ht, jsTruthy, updateAuthStateFromToken_isLoggedIn]

theorem getHeader_setHeader (headers : List (String × String)) (name value : String) :
    getHeader (setHeader headers name value) name = some value := by
  simp [getHeader, setHeader, List.find?]

/-- C2: the interceptor attaches an `Authorization: Bearer` header exactly
when the request targets the backend API origin, is not the login call, and a
(non-empty) access token is stored; a non-API request, the login request, and
a request with no stored token each pass through unmodified. -/
theorem jwtInterceptor_bearer_header :
    (∀ (storage : Storage) (request : HttpRequest) (next : HttpRequest → HttpResult),
      jsStartsWith request.url API_BASE = false ∨
      jsEndsWith request.url "/auth/login" = true ∨
      jsTruthy (Storage.getItem storage ACCESS_KEY) = false →
      (jwtInterceptor storage request next).1 = request) ∧
    (∀ (storage : Storage) (request : HttpRequest) (next : HttpRequest → HttpResult)
        (tok : String),
      Storage.getItem storage ACCESS_KEY = some tok → tok ≠ "" →
      jsStartsWith request.url API_BASE = true →
      jsEndsWith request.url "/auth/login" = false →
      (jwtInterceptor storage request next).1 =
        { request with
          headers := setHeader request.headers "Authorization" ("Bearer " ++ tok) } ∧
      getHeader (jwtInterceptor storage request next).1.headers "Authorization" =
        some ("Bearer " ++ tok)) := by
  constructor
  · intro storage request next h
    unfold jwtInterceptor
    dsimp only
    rcases h with h | h | h <;> simp [h]
  · intro storage request next tok hget hne happ hlog
    have htr : jsTruthy (some tok) = true := by simp [jsTruthy, hne]
    have h1 : (jwtInterceptor storage request next).1 =
        { request with
          headers := setHeader request.headers "Authorization" ("Bearer " ++ tok) } := by
      unfold jwtInterceptor
      dsimp only
      rw [hget, happ, hlog, htr]
      dsimp only [Option.getD]
      simp only [Bool.not_true, Bool.false_or, Bool.or_false, Bool.false_eq_true, if_false]
      generalize next _ = r
      cases r with
      | success => rfl
      | failure status =>
        dsimp only
        split <;> rfl
    exact ⟨h1, by rw [h1]; exact getHeader_setHeader _ _ _⟩

/-- C3: for every intercepted authorized request whose response is a 401
error, the interceptor removes the access token and the expiration, retains
the refresh token, sets the session-expired flag, and propagates the original
error unchanged; every other error and every success response passes through
with the storage untouched. -/
theorem jwtInterceptor_401_invalidates :
    ∀ (storage : Storage) (request : HttpRequest) (next : HttpRequest → HttpResult)
      (tok : String),
      Storage.getItem storage ACCESS_KEY = some tok → tok ≠ "" →
      jsStartsWith request.url API_BASE = true →
      jsEndsWith request.url "/auth/login" = false →
      (next { request with
          headers := setHeader request.headers "Authorization" ("Bearer " ++ tok) } =
            HttpResult.failure 401 →
        TokenStorageService.getAccessToken (jwtInterceptor storage request next).2.1 = none ∧
        TokenStorageService.getExpiration (jwtInterceptor storage request next).2.1 = none ∧
        TokenStorageService.isSessionExpired (jwtInterceptor storage request next).2.1 = true ∧
        TokenStorageService.getRefreshToken (jwtInterceptor storage request next).2.1 =
          TokenStorageService.getRefreshToken storage ∧
        (jwtInterceptor storage request next).2.2 = HttpResult.failure 401) ∧
      (∀ status, status ≠ 401 →
        next { request with
            headers := setHeader request.headers "Authorization" ("Bearer " ++ tok) } =
              HttpResult.failure status →
        (jwtInterceptor storage request next).2.1 = storage ∧
        (jwtInterceptor storage request next).2.2 = HttpResult.failure status) ∧
      (next { request with
          headers := setHeader request.headers "Authorization" ("Bearer " ++ tok) } =
            HttpResult.success →
        (jwtInterceptor storage request next).2.1 = storage ∧
        (jwtInterceptor storage request next).2.2 = HttpResult.success) := by
  intro storage request next tok hget hne happ hlog
  have htr : jsTruthy (some tok) = true := by simp [jsTruthy, hne]
  have heq : jwtInterceptor storage request next =
      (match next { request with
          headers := setHeader request.headers "Authorization" ("Bearer " ++ tok) } with
       | HttpResult.success =>
         ({ request with
            headers := setHeader request.headers "Authorization" ("Bearer " ++ tok) },
          storage, HttpResult.success)
       | HttpResult.failure status =>
         if status == 401 then
           ({ request with
              headers := setHeader request.headers "Authorization" ("Bearer " ++ tok) },
            Storage.setItem (Storage.removeItem (Storage.removeItem storage ACCESS_KEY) EXP_KEY)
              SESSION_EXPIRED_KEY "1",
            HttpResult.failure status)
         else
           ({ request with
              headers := setHeader request.headers "Authorization" ("Bearer " ++ tok) },
            storage, HttpResult.failure status)) := by
    unfold jwtInterceptor
    dsimp only
    rw [hget, happ, hlog, htr]
    rfl
  refine ⟨?_, ?_, ?_⟩
  · intro h401
    rw [heq, h401]
    dsimp only
    simp only [beq_self_eq_true, if_true]
    refine ⟨?_, ?_, ?_, ?_, trivial⟩
    · unfold TokenStorageService.getAccessToken
      simp [Storage.getItem_setItem, Storage.getItem_removeItem,
        ACCESS_KEY, EXP_KEY, SESSION_EXPIRED_KEY]
    · unfold TokenStorageService.getExpiration
      simp [Storage.getItem_setItem, Storage.getItem_removeItem,
        ACCESS_KEY, EXP_KEY, SESSION_EXPIRED_KEY]
    · unfold TokenStorageService.isSessionExpired
      simp [Storage.getItem_setItem, SESSION_EXPIRED_KEY]
    · unfold TokenStorageService.getRefreshToken
      simp [Storage.getItem_setItem, Storage.getItem_removeItem,
        ACCESS_KEY, EXP_KEY, SESSION_EXPIRED_KEY, REFRESH_KEY]
  · intro status hstat hfail
    rw [heq, hfail]
    dsimp only
    have hb : (status == 401) = false := by simp [hstat]
    simp only [hb, Bool.false_eq_true, if_false]
    constructor <;> trivial
  · intro hs
    rw [heq, hs]
    exact ⟨rfl, rfl⟩

/-- C7: for every well-formed three-segment token whose middle segment is
valid base64url-encoded JSON, decoding round-trips the written fields exactly
(base64url translated and padded to a multiple of four before decoding); in
particular, updating session state from a token encoding the fields
user = alice and admin = true yields that username and `isAdmin = true`. -/
theorem decodeJwtPayload_roundtrip :
    (∀ (hseg sseg : String) (bs : List Nat) (fields : List (String × Json)),
      (∀ c ∈ hseg.data, c ≠ '.') → (∀ c ∈ sseg.data, c ≠ '.') →
      (∀ b ∈ bs, b < 256) →
      parseJson (strOfBytes bs) = some fields →
      decodeJwtPayload (hseg ++ "." ++ b64urlEncode bs ++ "." ++ sseg) = some fields) ∧
    updateAuthStateFromToken
        ("hdr." ++
          b64urlEncode ("\x7b\"user\":\"alice\",\"admin\":true\x7d".data.map Char.toNat) ++
          ".sig") =
      { isLoggedIn := true, username := some "alice", isAdmin := true } := by
  constructor
  · intro hseg sseg bs fields hh hs hb hp
    rw [decodeJwtPayload_wellformed hseg sseg bs hh hs hb, hp]
  · decide

/-- Witness for C1: the amended theorem applied to the concrete stored token
`"notajwt2"`, which has no dot and is therefore undecodable. -/
theorem initializeAuthState_amended_witness :
    Storage.getItem [(ACCESS_KEY, "notajwt2")] ACCESS_KEY = some "notajwt2" ∧
    "notajwt2" ≠ "" ∧
    decodeJwtPayload "notajwt2" = none ∧
    initializeAuthState [(ACCESS_KEY, "notajwt2")] initialAuthState =
      { isLoggedIn := true, username := none, isAdmin := false } :=
  ⟨by decide, by decide, by decide,
   initializeAuthState_amended.1 [(ACCESS_KEY, "notajwt2")] "notajwt2"
     (by decide) (by decide) (by decide)⟩

/-- Witness for C2: a third-party request passes through unmodified and an
API request receives the bearer header of the stored token. -/
theorem jwtInterceptor_bearer_header_witness :
    jsStartsWith "https://www.omdbapi.com/" API_BASE = false ∧
    (jwtInterceptor [(ACCESS_KEY, "tok123")]
        { url := "https://www.omdbapi.com/", headers := [] }
        (fun _ => HttpResult.success)).1 =
      { url := "https://www.omdbapi.com/", headers := [] } ∧
    Storage.getItem [(ACCESS_KEY, "tok123")] ACCESS_KEY = some "tok123" ∧
    jsStartsWith "http://localhost:5000/api/v1.0/titles" API_BASE = true ∧
    jsEndsWith "http://localhost:5000/api/v1.0/titles" "/auth/login" = false ∧
    getHeader (jwtInterceptor [(ACCESS_KEY, "tok123")]
        { url := "http://localhost:5000/api/v1.0/titles", headers := [] }
        (fun _ => HttpResult.success)).1.headers "Authorization" =
      some ("Bearer " ++ "tok123") :=
  ⟨by decide,
   jwtInterceptor_bearer_header.1 _ _ _ (Or.inl (by decide)),
   by decide, by decide, by decide,
   (jwtInterceptor_bearer_header.2 _ _ _ "tok123"
     (by decide) (by decide) (by decide) (by decide)).2⟩

/-- Witness for C3: a 401 response on an authorized API request clears the
access token and expiration, keeps the refresh token, sets the flag, and
rethrows the original 401. -/
theorem jwtInterceptor_401_invalidates_witness :
    Storage.getItem [(ACCESS_KEY, "tok123"), (REFRESH_KEY, "refterm")] ACCESS_KEY =
      some "tok123" ∧
    jsStartsWith "http://localhost:5000/api/v1.0/titles" API_BASE = true ∧
    jsEndsWith "http://localhost:5000/api/v1.0/titles" "/auth/login" = false ∧
    (TokenStorageService.getAccessToken
        (jwtInterceptor [(ACCESS_KEY, "tok123"), (REFRESH_KEY, "refterm")]
          { url := "http://localhost:5000/api/v1.0/titles", headers := [] }
          (fun _ => HttpResult.failure 401)).2.1 = none ∧
      TokenStorageService.getExpiration
        (jwtInterceptor [(ACCESS_KEY, "tok123"), (REFRESH_KEY, "refterm")]
          { url := "http://localhost:5000/api/v1.0/titles", headers := [] }
          (fun _ => HttpResult.failure 401)).2.1 = none ∧
      TokenStorageService.isSessionExpired
        (jwtInterceptor [(ACCESS_KEY, "tok123"), (REFRESH_KEY, "refterm")]
          { url := "http://localhost:5000/api/v1.0/titles", headers := [] }
          (fun _ => HttpResult.failure 401)).2.1 = true ∧
      TokenStorageService.getRefreshToken
        (jwtInterceptor [(ACCESS_KEY, "tok123"), (REFRESH_KEY, "refterm")]
          { url := "http://localhost:5000/api/v1.0/titles", headers := [] }
          (fun _ => HttpResult.failure 401)).2.1 =
        TokenStorageService.getRefreshToken
          [(ACCESS_KEY, "tok123"), (REFRESH_KEY, "refterm")] ∧
      (jwtInterceptor [(ACCESS_KEY, "tok123"), (REFRESH_KEY, "refterm")]
          { url := "http://localhost:5000/api/v1.0/titles", headers := [] }
          (fun _ => HttpResult.failure 401)).2.2 = HttpResult.failure 401) :=
  ⟨by decide, by decide, by decide,
   (jwtInterceptor_401_invalidates _ _ _ "tok123"
     (by decide) (by decide) (by decide) (by decide)).1 rfl⟩

/-- Witness for C5: the no-refresh-token path on empty storage and the
failing-backend path on a stored refresh token. -/
theorem refreshSession_failure_paths_witness :
    jsTruthy (TokenStorageService.getRefreshToken ([] : Storage)) = false ∧
    (refreshSession [] initialAuthState
        (fun _ => (HttpOutcome.error "x" : HttpOutcome RefreshResponseBody)) =
        { networkCall := none, storage := TokenStorageService.clearTokens [] true,
          state := { isLoggedIn := false, username := none, isAdmin := false },
          error := some "No refresh token available" } ∧
      TokenStorageService.getAccessToken
        (refreshSession [] initialAuthState
          (fun _ => (HttpOutcome.error "x" : HttpOutcome RefreshResponseBody))).storage = none ∧
      TokenStorageService.getRefreshToken
        (refreshSession [] initialAuthState
          (fun _ => (HttpOutcome.error "x" : HttpOutcome RefreshResponseBody))).storage = none ∧
      TokenStorageService.getExpiration
        (refreshSession [] initialAuthState
          (fun _ => (HttpOutcome.error "x" : HttpOutcome RefreshResponseBody))).storage = none) ∧
    TokenStorageService.getRefreshToken [(REFRESH_KEY, "r1")] = some "r1" ∧
    "r1" ≠ "" ∧
    (refreshSession [(REFRESH_KEY, "r1")] initialAuthState
        (fun _ => (HttpOutcome.error "boom" : HttpOutcome RefreshResponseBody)) =
        { networkCall := some "r1",
          storage := TokenStorageService.clearTokens [(REFRESH_KEY, "r1")] true,
          state := { isLoggedIn := false, username := none, isAdmin := false },
          error := some "boom" } ∧
      TokenStorageService.getAccessToken
        (refreshSession [(REFRESH_KEY, "r1")] initialAuthState
          (fun _ => (HttpOutcome.error "boom" : HttpOutcome RefreshResponseBody))).storage = none ∧
      TokenStorageService.getRefreshToken
        (refreshSession [(REFRESH_KEY, "r1")] initialAuthState
          (fun _ => (HttpOutcome.error "boom" : HttpOutcome RefreshResponseBody))).storage = none ∧
      TokenStorageService.getExpiration
        (refreshSession [(REFRESH_KEY, "r1")] initialAuthState
          (fun _ => (HttpOutcome.error "boom" : HttpOutcome RefreshResponseBody))).storage = none) :=
  ⟨by decide,
   refreshSession_failure_paths.1 [] initialAuthState _ (by decide),
   by decide, by decide,
   refreshSession_failure_paths.2 [(REFRESH_KEY, "r1")] initialAuthState _ "r1" "boom"
     (by decide) (by decide) rfl⟩

/-- Witness for C6: a whitespace-only username fails fast without a network
call, and a padded mixed-case username is normalized before the call. -/
theorem login_normalizes_and_validates_witness :
    jsToLowerCase (jsTrim "   ") = "" ∧
    login [] initialAuthState { username := "   ", password := "pw" }
        (fun _ _ => (HttpOutcome.error "e" : HttpOutcome LoginResponseBody)) =
      { networkCall := none, storage := [], state := initialAuthState,
        error := some "Username and password are required" } ∧
    jsToLowerCase (jsTrim "  Alice ") ≠ "" ∧
    ("pw" : String) ≠ "" ∧
    (login [] initialAuthState { username := "  Alice ", password := "pw" }
        (fun _ _ => (HttpOutcome.error "e" : HttpOutcome LoginResponseBody))).networkCall =
      some ("alice", "pw") :=
  ⟨by decide,
   login_normalizes_and_validates.1 [] initialAuthState
     { username := "   ", password := "pw" } _ (Or.inl (by decide)),
   by decide, by decide,
   login_normalizes_and_validates.2 [] initialAuthState
     { username := "  Alice ", password := "pw" } _ (by decide) (by decide)⟩

/-- Witness for C7: the round-trip theorem applied to the concrete payload
with fields user = alice and admin = true. -/
theorem decodeJwtPayload_roundtrip_witness :
    (∀ c ∈ ("hdr" : String).data, c ≠ '.') ∧
    (∀ c ∈ ("sig" : String).data, c ≠ '.') ∧
    (∀ b ∈ ("\x7b\"user\":\"alice\",\"admin\":true\x7d".data.map Char.toNat), b < 256) ∧
    parseJson (strOfBytes ("\x7b\"user\":\"alice\",\"admin\":true\x7d".data.map Char.toNat)) =
      some [("user", Json.str "alice"), ("admin", Json.bool true)] ∧
    decodeJwtPayload ("hdr." ++
        b64urlEncode ("\x7b\"user\":\"alice\",\"admin\":true\x7d".data.map Char.toNat) ++
        ".sig") =
      some [("user", Json.str "alice"), ("admin", Json.bool true)] :=
  ⟨by decide, by decide, by decide, by decide,
   decodeJwtPayload_roundtrip.1 "hdr" "sig"
     ("\x7b\"user\":\"alice\",\"admin\":true\x7d".data.map Char.toNat)
     [("user", Json.str "alice"), ("admin", Json.bool true)]
     (by decide) (by decide) (by decide) (by decide)⟩

/-- Witness for C9: the invariant holds of the initial state and is preserved
by a failing login from the initial state. -/
theorem authState_invariant_all_witness :
    authInvariant initialAuthState ∧
    authInvariant (login [] initialAuthState { username := "u", password := "p" }
      (fun _ _ => (HttpOutcome.error "e" : HttpOutcome LoginResponseBody))).state :=
  ⟨fun _ => ⟨rfl, rfl⟩,
   authState_invariant_all.2.2.2.1 [] initialAuthState _ _ (fun _ => ⟨rfl, rfl⟩)⟩

/-- Witness for C10: a successful login body whose data misses the access
token produces the missing-tokens error and leaves storage and state alone. -/
theorem login_missing_tokens_error_witness :
    jsToLowerCase (jsTrim "user") ≠ "" ∧
    ("pw" : String) ≠ "" ∧
    (fun _ _ : String => (HttpOutcome.ok
        { success := true,
          data :=
            some { access_token := none, refresh_token := some "r", expiration := none } } :
          HttpOutcome LoginResponseBody))
      (jsToLowerCase (jsTrim "user")) "pw" =
      HttpOutcome.ok
        { success := true,
          data :=
            some { access_token := none, refresh_token := some "r", expiration := none } } ∧
    login [] initialAuthState { username := "user", password := "pw" }
        (fun _ _ => (HttpOutcome.ok
          { success := true,
            data :=
              some { access_token := none, refresh_token := some "r", expiration := none } } :
            HttpOutcome LoginResponseBody)) =
      { networkCall := some ("user", "pw"), storage := [], state := initialAuthState,
        error := some "Invalid login response: missing tokens" } :=
  ⟨by decide, by decide, rfl,
   login_missing_tokens_error [] initialAuthState { username := "user", password := "pw" } _
     { access_token := none, refresh_token := some "r", expiration := none }
     (by decide) (by decide) rfl (Or.inl rfl)⟩

end Streamverse
